import Mathlib

/-!
Shallow embedding of `tensor2tensor/models/research/next_frame.py`
(the `NextFrameStochastic` / SV2P family of models) and proofs of the
specification claims about it.

Tensors are embedded per-pixel: an image is a function from an abstract
pixel-index type `Pos` to `ℝ`.  Neural-network primitives (convolutions,
conv-LSTMs, the CDNA/DNA kernel computations of `common_video`) are opaque
learned functions and enter the embedding as function parameters; the
control flow, the compositing algebra, the scheduled-sampling control, the
sequence driver threading and the loss/annealing accounting are translated
from the source.  Schedule/loss scalars are embedded in `ℚ` (exact
arithmetic), per-pixel tensor values in `ℝ`.
-/

namespace NextFrame

/-- Embeds `tf.nn.sigmoid`, applied to the direct image-layer output (source line 446). -/
noncomputable def sigmoid (x : ℝ) : ℝ := 1 / (1 + Real.exp (-x))

/-- Embeds `tf.nn.softmax` over the last axis of the `[-1, num_masks + 1]` reshape of
the mask tensor (source lines 466-470): channel `i` of a pixel whose logit row
is `x`, normalized over the `n` channels. -/
noncomputable def softmaxAt (n : ℕ) (x : ℕ → ℝ) (i : ℕ) : ℝ :=
  Real.exp (x i) / ∑ j ∈ Finset.range n, Real.exp (x j)

/-- Modelled from the spec: `common_video.cdna_transformation` is not under
`src/`; per the spec (§4.3, CDNA) it returns `num_masks` candidate images
obtained by applying distinct learned transforms to the previous frame.  The
learned per-candidate pixel values are abstracted as the generator `cand`. -/
def cdna_transformation {Pos : Type} (num_masks : ℕ) (cand : ℕ → Pos → ℝ) :
    List (Pos → ℝ) :=
  (List.range num_masks).map cand

/-- The `transformed` candidate list of `construct_predictive_tower`
(source lines 424-461): in non-DNA modes it starts with the sigmoid-activated
direct image layer; CDNA appends the `num_masks` CDNA-transformed copies of
the previous frame; DNA replaces it with the single DNA candidate, after
checking `num_masks == 1` (raising `ValueError` otherwise).  `enc7direct` is
the (opaque) pre-activation output of the `convt4` convolution in the non-DNA
branch; `dnaCand` the (opaque) output of `common_video.dna_transformation`. -/
noncomputable def transformedList {Pos : Type} (model_options : String)
    (num_masks : ℕ) (enc7direct : Pos → ℝ) (cdnaCand : ℕ → Pos → ℝ)
    (dnaCand : Pos → ℝ) : Except String (List (Pos → ℝ)) :=
  if model_options = "DNA" then
    if num_masks ≠ 1 then
      Except.error "Only one mask is supported for DNA model."
    else
      Except.ok [dnaCand]
  else
    let t := [fun p => sigmoid (enc7direct p)]
    if model_options = "CDNA" then
      Except.ok (t ++ cdna_transformation num_masks cdnaCand)
    else
      Except.ok t

/-- One channel of the softmax-normalized compositing mask
(source lines 463-470); `maskLogits` is the (opaque) output of the `convt7`
convolution, a `num_masks + 1`-channel tensor. -/
noncomputable def compositingMask {Pos : Type} (num_masks : ℕ)
    (maskLogits : Pos → ℕ → ℝ) (p : Pos) (i : ℕ) : ℝ :=
  softmaxAt (num_masks + 1) (maskLogits p) i

/-- The `mask_list` of `construct_predictive_tower`: the `tf.split` of the
softmax-normalized mask tensor into its `num_masks + 1` channels
(source lines 471-472). -/
noncomputable def maskListOf {Pos : Type} (num_masks : ℕ)
    (maskLogits : Pos → ℕ → ℝ) : List (Pos → ℝ) :=
  (List.range (num_masks + 1)).map (fun i => fun q => compositingMask num_masks maskLogits q i)

/-- The compositing sum of `construct_predictive_tower`
(source lines 473-475): `output = mask_list[0] * input_image` followed by
`for layer, mask in zip(transformed, mask_list[1:]): output += layer * mask`. -/
noncomputable def compositeOutput {Pos : Type} (num_masks : ℕ)
    (input_image : Pos → ℝ) (transformed : List (Pos → ℝ))
    (maskLogits : Pos → ℕ → ℝ) : Pos → ℝ :=
  fun p =>
    compositingMask num_masks maskLogits p 0 * input_image p
      + ((transformed.zip ((maskListOf num_masks maskLogits).drop 1)).map
          (fun lm => lm.1 p * lm.2 p)).sum

/-- The output image of `construct_predictive_tower` (source lines 424-477):
the candidate list (raising the DNA configuration `ValueError` when
applicable) composited with the softmax mask against the untransformed input
image. -/
noncomputable def construct_predictive_tower {Pos : Type}
    (model_options : String) (num_masks : ℕ) (input_image : Pos → ℝ)
    (enc7direct : Pos → ℝ) (cdnaCand : ℕ → Pos → ℝ) (dnaCand : Pos → ℝ)
    (maskLogits : Pos → ℕ → ℝ) : Except String (Pos → ℝ) :=
  match transformedList model_options num_masks enc7direct cdnaCand dnaCand with
  | Except.error e => Except.error e
  | Except.ok transformed =>
      Except.ok (compositeOutput num_masks input_image transformed maskLogits)

/-- Embeds `construct_latent_tower` (source lines 188-245), after the opaque
convolutional part: `raw_mean`/`raw_std` stand for the outputs of the
`latent_mean` / `latent_std` convolutions, `latent_std_min` is added to the
std (source line 239), and outside training mode the tower returns
`(zeros_like mean, zeros_like std)` instead (source lines 242-243). -/
def construct_latent_tower {σ : Type} (is_training : Bool)
    (raw_mean raw_std : σ → ℝ) (latent_std_min : ℝ) : (σ → ℝ) × (σ → ℝ) :=
  let std := fun p => raw_std p + latent_std_min
  if is_training = false then (fun _ => 0, fun _ => 0)
  else (raw_mean, std)

/-- Embeds `get_gaussian_latent` (source lines 479-482): the reparameterized sample
`latent_mean + exp(latent_std / 2) * noise`, where `noise` stands for the
`tf.random_normal` standard-normal draw. -/
noncomputable def get_gaussian_latent {σ : Type}
    (latent_mean latent_std noise : σ → ℝ) : σ → ℝ :=
  fun p => latent_mean p + Real.exp (latent_std p / 2) * noise p

/-- The `done_warm_start` flag of the step functions
(source lines 518 and 778): `time_step > context_frames - 1`. -/
def done_warm_start_flag (time_step context_frames : ℤ) : Bool :=
  time_step > context_frames - 1

/-- Embeds `get_scheduled_sample_inputs` (source lines 597-628): a `tf.case` whose
first branch (warm start not done) returns the ground-truth items, second
branch (not training) the generated items, and whose default consults the
configured scheduled-sampling function on each (ground-truth, generated)
pair of items. -/
def get_scheduled_sample_inputs {α : Type} (is_training done_warm_start : Bool)
    (groundtruth_items generated_items : List α) (ss_func : α → α → α) :
    List α :=
  if done_warm_start = false then groundtruth_items
  else if is_training = false then generated_items
  else (groundtruth_items.zip generated_items).map (fun gg => ss_func gg.1 gg.2)

/-- The state tuple threaded by `construct_model`'s scan
(source lines 511-538): `(time_step, prev_image, prev_reward, lstm_states,
reward_lstm_states)`.  Tensors are an abstract type `τ`, the two banks of
conv-LSTM states abstract types `π` and `ρ`. -/
structure StepState (τ π ρ : Type) where
  time_step : ℤ
  prev_image : τ
  prev_reward : τ
  lstm_states : π
  reward_lstm_states : ρ

/-- Embeds `process_single_frame` (source lines 511-538).  `pred_tower` and
`reward_tower` are the (opaque, latent-conditioned) predictive and reward
towers, returning the predicted tensor and the updated LSTM state bank; the
input triple is destructured as `(cur_image, cur_reward, action)` exactly as
in the source. -/
def process_single_frame {τ π ρ : Type} (reward_prediction is_training : Bool)
    (context_frames : ℤ) (ss_func : τ → τ → τ)
    (pred_tower : τ → τ → τ → π → τ × π)
    (reward_tower : τ → τ → τ → ρ → τ × ρ)
    (prev_outputs : StepState τ π ρ) (inputs : τ × τ × τ) : StepState τ π ρ :=
  let cur_image := inputs.1
  let cur_reward := inputs.2.1
  let action := inputs.2.2
  let generated_items := [prev_outputs.prev_image, prev_outputs.prev_reward]
  let groundtruth_items := [cur_image, cur_reward]
  let done_warm_start := done_warm_start_flag prev_outputs.time_step context_frames
  let sel := get_scheduled_sample_inputs is_training done_warm_start
    groundtruth_items generated_items ss_func
  let input_image := sel.getD 0 cur_image
  let input_reward := sel.getD 1 cur_reward
  let pred := pred_tower input_image input_reward action prev_outputs.lstm_states
  let rew :=
    if reward_prediction then
      reward_tower input_image input_reward action prev_outputs.reward_lstm_states
    else
      (input_reward, prev_outputs.reward_lstm_states)
  { time_step := prev_outputs.time_step + 1
    prev_image := pred.1
    prev_reward := rew.1
    lstm_states := pred.2
    reward_lstm_states := rew.2 }

/-- Embeds `tf.scan` along the leading (time) axis: the list of successive states
produced by folding `f` from `init` over the inputs (source line 559). -/
def scanTF {St In : Type} (f : St → In → St) : St → List In → List St
  | _, [] => []
  | s, x :: xs => let s' := f s x; s' :: scanTF f s' xs

/-- Embeds `NextFrameStochastic.construct_model` (source lines 484-565).  The latent
tower's convolutional part is abstracted as `raw_latent`; the first step is
processed outside the scan with `prev_outputs = (0, images[0], rewards[0],
uninitialized states)` and inputs `(images[0], rewards[0], actions[0])`; the
scan then runs over the triples `(images[1:-1], actions[1:-1],
rewards[1:-1])` (which `process_single_frame` destructures as `(cur_image,
cur_reward, action)`, exactly as in the source).  The Python return statement
references `latent_mean` / `latent_std`, which are bound only inside the
`stochastic_model` branch; with `stochastic_model = False` the return raises
an uncaught `NameError`, embedded as the error case. -/
noncomputable def construct_model {τ π ρ σ : Type} [Inhabited τ]
    (stochastic_model reward_prediction is_training : Bool)
    (context_frames : ℤ) (raw_latent : (σ → ℝ) × (σ → ℝ))
    (latent_std_min : ℝ) (noise : σ → ℝ) (ss_func : τ → τ → τ)
    (pred_tower : Option (σ → ℝ) → τ → τ → τ → π → τ × π)
    (reward_tower : Option (σ → ℝ) → τ → τ → τ → ρ → τ × ρ)
    (init_lstm : π) (init_reward_lstm : ρ) (images actions rewards : List τ) :
    Except String (List τ × List τ × List (σ → ℝ) × List (σ → ℝ)) :=
  let latentVars : Option ((σ → ℝ) × (σ → ℝ)) :=
    if stochastic_model then
      some (construct_latent_tower is_training raw_latent.1 raw_latent.2 latent_std_min)
    else none
  let latent : Option (σ → ℝ) :=
    latentVars.map (fun ms => get_gaussian_latent ms.1 ms.2 noise)
  let step := process_single_frame reward_prediction is_training context_frames
    ss_func (pred_tower latent) (reward_tower latent)
  let prev0 : StepState τ π ρ :=
    { time_step := 0, prev_image := images.headI, prev_reward := rewards.headI
      lstm_states := init_lstm, reward_lstm_states := init_reward_lstm }
  let inputs0 : τ × τ × τ := (images.headI, rewards.headI, actions.headI)
  let initializers := step prev0 inputs0
  let scan_inputs : List (τ × τ × τ) :=
    ((images.drop 1).dropLast.zip
      (((actions.drop 1).dropLast).zip ((rewards.drop 1).dropLast))).map
      (fun iar => (iar.1, iar.2.1, iar.2.2))
  let outs := scanTF step initializers scan_inputs
  let gen_images := initializers.prev_image :: outs.map (fun s => s.prev_image)
  let gen_rewards := initializers.prev_reward :: outs.map (fun s => s.prev_reward)
  match latentVars with
  | some ms => Except.ok (gen_images, gen_rewards, [ms.1], [ms.2])
  | none => Except.error "NameError: latent_mean is not defined"

/-- The prediction-windowing tail of `NextFrameStochastic.body`
(source lines 723-726): the first `video_num_input_frames - 1` generated
frames and rewards are dropped before the outputs are returned. -/
noncomputable def body_predictions {τ π ρ σ : Type} [Inhabited τ]
    (stochastic_model reward_prediction is_training : Bool)
    (video_num_input_frames : ℕ) (raw_latent : (σ → ℝ) × (σ → ℝ))
    (latent_std_min : ℝ) (noise : σ → ℝ) (ss_func : τ → τ → τ)
    (pred_tower : Option (σ → ℝ) → τ → τ → τ → π → τ × π)
    (reward_tower : Option (σ → ℝ) → τ → τ → τ → ρ → τ × ρ)
    (init_lstm : π) (init_reward_lstm : ρ) (images actions rewards : List τ) :
    Except String (List τ × List τ) :=
  match construct_model stochastic_model reward_prediction is_training
      (video_num_input_frames : ℤ) raw_latent latent_std_min noise ss_func
      pred_tower reward_tower init_lstm init_reward_lstm images actions rewards with
  | Except.error e => Except.error e
  | Except.ok r =>
      Except.ok (r.1.drop (video_num_input_frames - 1),
                 r.2.1.drop (video_num_input_frames - 1))

/-- The `beta` annealing-schedule computation of `NextFrameStochastic.body`
(source lines 682-709), in exact rational arithmetic: the `constant` schedule
is a step function at `num_iterations_2nd_stage`; the `linear_anneal`
schedule first validates `anneal_end ≥ num_iterations_2nd_stage` (raising
`ValueError` otherwise) and then evaluates the `tf.case`: zero before the
second stage, the full multiplier after `anneal_end`, and the linear
interpolation `latent_loss_multiplier * (1 - (anneal_end - step) /
(anneal_end - second_stage))` in between. -/
def body_beta (schedule : String) (step_num second_stage anneal_end : ℕ)
    (latent_loss_multiplier : ℚ) : Except String ℚ :=
  if schedule = "constant" then
    Except.ok (if step_num > second_stage then latent_loss_multiplier else 0)
  else if schedule = "linear_anneal" then
    if anneal_end < second_stage then
      Except.error "Expected hparams.num_iterations_2nd_stage < hparams.anneal_end"
    else
      Except.ok
        (if step_num < second_stage then 0
         else if step_num > anneal_end then latent_loss_multiplier
         else latent_loss_multiplier *
           (1 - ((anneal_end : ℚ) - (step_num : ℚ)) / ((anneal_end : ℚ) - (second_stage : ℚ))))
  else
    Except.error "NameError: beta is not defined"

/-- The KL accumulation of `NextFrameStochastic.body` (source lines 711-716):
`kl_loss` starts at `0.0` and accumulates `kl_divergence(mean, std)` over the
latent pairs only in training mode; `kls` stands for the list of per-pair KL
divergence values. -/
def body_kl_loss (is_training : Bool) (kls : List ℚ) : ℚ :=
  if is_training then kls.sum else 0

/-- Embeds `extra_loss = beta * kl_loss` (source line 721). -/
def body_extra_loss (is_training : Bool) (beta : ℚ) (kls : List ℚ) : ℚ :=
  beta * body_kl_loss is_training kls

/-- The Python-level timestep loop of
`NextFrameStochasticTwoFrames.construct_model` (source lines 774-803).  The
iteration walks `images[:-1]` (with `images[timestep+1]` available as the
head of the remainder) zipped against the (already `[:-1]`-sliced) action and
reward lists; each step performs scheduled sampling on the (image, reward)
pair, estimates the latent fresh from the ground-truth pair
`[image, images[timestep+1]]` (the source indexes the loop variable `image`,
not the scheduled-sampling output `input_image`), and runs the predictive and
reward towers on the scheduled inputs.  Returns `(gen_images, gen_rewards,
latent_means, latent_stds)`. -/
noncomputable def twoframes_loop {τ π ρ σ : Type}
    (reward_prediction is_training : Bool) (context_frames : ℤ)
    (ss_func : τ → τ → τ) (raw_latent_tower : τ → τ → (σ → ℝ) × (σ → ℝ))
    (latent_std_min : ℝ) (noise : ℤ → σ → ℝ)
    (pred_tower : Option (σ → ℝ) → τ → τ → τ → π → τ × π)
    (reward_tower : Option (σ → ℝ) → τ → τ → τ → ρ → τ × ρ) :
    ℤ → List τ → List τ → List τ → τ → τ → π → ρ →
    List τ × List τ × List (σ → ℝ) × List (σ → ℝ)
  | timestep, image :: next :: restImgs, action :: restActs, reward :: restRews,
    pred_image, pred_reward, lstm_state, reward_lstm_state =>
      let done_warm_start := done_warm_start_flag timestep context_frames
      let groundtruth_items := [image, reward]
      let generated_items := [pred_image, pred_reward]
      let sel := get_scheduled_sample_inputs is_training done_warm_start
        groundtruth_items generated_items ss_func
      let input_image := sel.getD 0 image
      let input_reward := sel.getD 1 reward
      let ms := construct_latent_tower is_training
        (raw_latent_tower image next).1 (raw_latent_tower image next).2 latent_std_min
      let latent := get_gaussian_latent ms.1 ms.2 (noise timestep)
      let pred := pred_tower (some latent) input_image input_reward action lstm_state
      let rew :=
        if reward_prediction then
          reward_tower (some latent) input_image input_reward action reward_lstm_state
        else
          (input_reward, reward_lstm_state)
      let rest := twoframes_loop reward_prediction is_training context_frames
        ss_func raw_latent_tower latent_std_min noise pred_tower reward_tower
        (timestep + 1) (next :: restImgs) restActs restRews pred.1 rew.1 pred.2 rew.2
      (pred.1 :: rest.1, rew.1 :: rest.2.1, ms.1 :: rest.2.2.1, ms.2 :: rest.2.2.2)
  | _, _, _, _, _, _, _, _ => ([], [], [], [])

/-- Embeds `NextFrameStochasticTwoFrames.construct_model` (source lines 756-808):
unstacks the sequences, seeds `(pred_image, pred_reward) = (images[0],
rewards[0])` and uninitialized LSTM state banks, and runs the explicit
timestep loop over `images[:-1]`, `actions[:-1]`, `rewards[:-1]`. -/
noncomputable def twoframes_construct_model {τ π ρ σ : Type} [Inhabited τ]
    (reward_prediction is_training : Bool) (context_frames : ℤ)
    (ss_func : τ → τ → τ) (raw_latent_tower : τ → τ → (σ → ℝ) × (σ → ℝ))
    (latent_std_min : ℝ) (noise : ℤ → σ → ℝ)
    (pred_tower : Option (σ → ℝ) → τ → τ → τ → π → τ × π)
    (reward_tower : Option (σ → ℝ) → τ → τ → τ → ρ → τ × ρ)
    (init_lstm : π) (init_reward_lstm : ρ) (images actions rewards : List τ) :
    List τ × List τ × List (σ → ℝ) × List (σ → ℝ) :=
  twoframes_loop reward_prediction is_training context_frames ss_func
    raw_latent_tower latent_std_min noise pred_tower reward_tower
    0 images actions.dropLast rewards.dropLast
    images.headI rewards.headI init_lstm init_reward_lstm

theorem sum_exp_range_pos (n : ℕ) (x : ℕ → ℝ) :
    0 < ∑ j ∈ Finset.range (n + 1), Real.exp (x j) :=
  Finset.sum_pos (fun j _ => Real.exp_pos (x j))
    (Finset.nonempty_range_iff.mpr (Nat.succ_ne_zero n))

theorem softmaxAt_pos (n : ℕ) (x : ℕ → ℝ) (i : ℕ) : 0 < softmaxAt (n + 1) x i :=
  div_pos (Real.exp_pos _) (sum_exp_range_pos n x)

theorem softmaxAt_sum_eq_one (n : ℕ) (x : ℕ → ℝ) :
    ∑ i ∈ Finset.range (n + 1), softmaxAt (n + 1) x i = 1 := by
  unfold softmaxAt
  rw [← Finset.sum_div]
  exact div_self (ne_of_gt (sum_exp_range_pos n x))

theorem compositingMask_pos {Pos : Type} (num_masks : ℕ)
    (maskLogits : Pos → ℕ → ℝ) (p : Pos) (i : ℕ) :
    0 < compositingMask num_masks maskLogits p i :=
  softmaxAt_pos num_masks (maskLogits p) i

theorem compositingMask_sum {Pos : Type} (num_masks : ℕ)
    (maskLogits : Pos → ℕ → ℝ) (p : Pos) :
    ∑ i ∈ Finset.range (num_masks + 1), compositingMask num_masks maskLogits p i = 1 :=
  softmaxAt_sum_eq_one num_masks (maskLogits p)

/-- Claim C4: for every configuration (any `num_masks`, any mode) the
compositing mask built in `construct_predictive_tower` has exactly
`num_masks + 1` channels and is softmax-normalized across the channel
dimension, so at every batch element and spatial location the channel values
sum to exactly 1. -/
theorem claim_C4_mask_channels_sum_one {Pos : Type} (num_masks : ℕ)
    (maskLogits : Pos → ℕ → ℝ) (p : Pos) :
    (maskListOf num_masks maskLogits).length = num_masks + 1 ∧
    ∑ i ∈ Finset.range (num_masks + 1), compositingMask num_masks maskLogits p i = 1 :=
  ⟨by simp [maskListOf], compositingMask_sum num_masks maskLogits p⟩

/-- Claim C5: `construct_predictive_tower` raises the configuration
`ValueError` in DNA mode whenever `num_masks ≠ 1` (e.g. `num_masks = 2`),
and succeeds without that error in DNA mode with `num_masks = 1`. -/
theorem claim_C5_dna_requires_one_mask {Pos : Type} (num_masks : ℕ)
    (input_image enc7direct : Pos → ℝ) (cdnaCand : ℕ → Pos → ℝ)
    (dnaCand : Pos → ℝ) (maskLogits : Pos → ℕ → ℝ) :
    (num_masks ≠ 1 →
      construct_predictive_tower "DNA" num_masks input_image enc7direct
          cdnaCand dnaCand maskLogits
        = Except.error "Only one mask is supported for DNA model.") ∧
    (num_masks = 1 →
      ∃ out, construct_predictive_tower "DNA" num_masks input_image enc7direct
          cdnaCand dnaCand maskLogits = Except.ok out) := by
  constructor
  · intro h
    simp [construct_predictive_tower, transformedList, h]
  · intro h
    subst h
    exact ⟨_, rfl⟩

/-- Witness for C5 at `num_masks = 2` (error) and `num_masks = 1` (success). -/
theorem claim_C5_dna_requires_one_mask_witness :
    construct_predictive_tower "DNA" 2 (fun _ : Unit => (0 : ℝ)) (fun _ => 0)
        (fun _ _ => 0) (fun _ => 0) (fun _ _ => 0)
      = Except.error "Only one mask is supported for DNA model." ∧
    ∃ out, construct_predictive_tower "DNA" 1 (fun _ : Unit => (0 : ℝ)) (fun _ => 0)
        (fun _ _ => 0) (fun _ => 0) (fun _ _ => 0) = Except.ok out :=
  ⟨(claim_C5_dna_requires_one_mask 2 (fun _ : Unit => (0 : ℝ)) (fun _ => 0)
      (fun _ _ => 0) (fun _ => 0) (fun _ _ => 0)).1 (by decide),
   (claim_C5_dna_requires_one_mask 1 (fun _ : Unit => (0 : ℝ)) (fun _ => 0)
      (fun _ _ => 0) (fun _ => 0) (fun _ _ => 0)).2 rfl⟩

/-- Claim C3: in non-training mode `construct_latent_tower` returns the pair
`(zero, zero)` instead of the computed posterior, and `get_gaussian_latent`
still draws noise — the sample is `mean + exp(std / 2) * noise`, which with
mean = 0 and std = 0 degenerates to the standard-normal draw itself; in
training mode the tower returns the computed mean and the computed std with
the floor `latent_std_min` added. -/
theorem claim_C3_latent_tower_modes {σ : Type} (is_training : Bool)
    (raw_mean raw_std : σ → ℝ) (latent_std_min : ℝ) (noise : σ → ℝ) :
    (get_gaussian_latent raw_mean raw_std noise
      = fun p => raw_mean p + Real.exp (raw_std p / 2) * noise p) ∧
    (is_training = false →
      construct_latent_tower is_training raw_mean raw_std latent_std_min
          = (fun _ => 0, fun _ => 0) ∧
      get_gaussian_latent
          (construct_latent_tower is_training raw_mean raw_std latent_std_min).1
          (construct_latent_tower is_training raw_mean raw_std latent_std_min).2
          noise
        = noise) ∧
    (is_training = true →
      construct_latent_tower is_training raw_mean raw_std latent_std_min
        = (raw_mean, fun p => raw_std p + latent_std_min)) := by
  refine ⟨rfl, fun h => ?_, fun h => ?_⟩
  · subst h
    refine ⟨rfl, ?_⟩
    funext p
    simp [construct_latent_tower, get_gaussian_latent, Real.exp_zero]
  · subst h
    rfl

/-- Witness for C3 at concrete tower outputs, in both modes. -/
theorem claim_C3_latent_tower_modes_witness :
    (construct_latent_tower false (fun _ : Unit => (3 : ℝ)) (fun _ => 5) 7
        = (fun _ => 0, fun _ => 0) ∧
      get_gaussian_latent
          (construct_latent_tower false (fun _ : Unit => (3 : ℝ)) (fun _ => 5) 7).1
          (construct_latent_tower false (fun _ : Unit => (3 : ℝ)) (fun _ => 5) 7).2
          (fun _ => 11)
        = fun _ => 11) ∧
    construct_latent_tower true (fun _ : Unit => (3 : ℝ)) (fun _ => 5) 7
      = (fun _ => 3, fun p => (fun _ : Unit => (5 : ℝ)) p + 7) :=
  ⟨(claim_C3_latent_tower_modes false (fun _ : Unit => (3 : ℝ)) (fun _ => 5) 7
      (fun _ => 11)).2.1 rfl,
   (claim_C3_latent_tower_modes true (fun _ : Unit => (3 : ℝ)) (fun _ => 5) 7
      (fun _ => 11)).2.2 rfl⟩

/-- Claim C8: outside training mode the KL accumulation of `body` is skipped,
so `kl_loss = 0` and the returned auxiliary loss `beta * kl_loss` is exactly
0, for every beta and every collection of latent pairs. -/
theorem claim_C8_no_kl_outside_training (beta : ℚ) (kls : List ℚ) :
    body_kl_loss false kls = 0 ∧ body_extra_loss false beta kls = 0 := by
  constructor
  · rfl
  · simp [body_extra_loss, body_kl_loss]

/-- Claim C2: whenever `time_step ≤ context_frames - 1` the scheduled-sampling
controller outputs the ground-truth items regardless of training mode and of
the sampling policy; past the context window it outputs exactly the
previously generated items in non-training mode; only in training mode past
warm start is the configured sampling function consulted (on each
ground-truth/generated pair, identically). -/
theorem claim_C2_scheduled_sampling_branches {α : Type}
    (time_step context_frames : ℤ) (is_training : Bool)
    (groundtruth_items generated_items : List α) (ss_func : α → α → α) :
    (time_step ≤ context_frames - 1 →
      get_scheduled_sample_inputs is_training
          (done_warm_start_flag time_step context_frames)
          groundtruth_items generated_items ss_func = groundtruth_items) ∧
    (context_frames - 1 < time_step → is_training = false →
      get_scheduled_sample_inputs is_training
          (done_warm_start_flag time_step context_frames)
          groundtruth_items generated_items ss_func = generated_items) ∧
    (context_frames - 1 < time_step → is_training = true →
      get_scheduled_sample_inputs is_training
          (done_warm_start_flag time_step context_frames)
          groundtruth_items generated_items ss_func
        = (groundtruth_items.zip generated_items).map
            (fun gg => ss_func gg.1 gg.2)) := by
  refine ⟨fun h => ?_, fun h ht => ?_, fun h ht => ?_⟩
  · have hf : done_warm_start_flag time_step context_frames = false := by
      simp [done_warm_start_flag]
      omega
    simp [get_scheduled_sample_inputs, hf]
  · have hf : done_warm_start_flag time_step context_frames = true := by
      simp [done_warm_start_flag]
      omega
    simp [get_scheduled_sample_inputs, hf, ht]
  · have hf : done_warm_start_flag time_step context_frames = true := by
      simp [done_warm_start_flag]
      omega
    simp [get_scheduled_sample_inputs, hf, ht]

/-- Witness for C2: `context_frames = 2`, with `time_step = 1` (inside the
window, training mode) and `time_step = 5` (past the window) in both modes. -/
theorem claim_C2_scheduled_sampling_branches_witness :
    get_scheduled_sample_inputs true (done_warm_start_flag 1 2)
        [10, 20] [30, 40] (fun a b : ℕ => a + b) = [10, 20] ∧
    get_scheduled_sample_inputs false (done_warm_start_flag 5 2)
        [10, 20] [30, 40] (fun a b : ℕ => a + b) = [30, 40] ∧
    get_scheduled_sample_inputs true (done_warm_start_flag 5 2)
        [10, 20] [30, 40] (fun a b : ℕ => a + b)
      = ([10, 20].zip [30, 40]).map (fun gg => gg.1 + gg.2) :=
  ⟨(claim_C2_scheduled_sampling_branches 1 2 true [10, 20] [30, 40]
      (fun a b => a + b)).1 (by decide),
   (claim_C2_scheduled_sampling_branches 5 2 false [10, 20] [30, 40]
      (fun a b => a + b)).2.1 (by decide) rfl,
   (claim_C2_scheduled_sampling_branches 5 2 true [10, 20] [30, 40]
      (fun a b => a + b)).2.2 (by decide) rfl⟩

/-- Claim C7: with the `linear_anneal` schedule, `anneal_end <
num_iterations_2nd_stage` raises the configuration `ValueError` before any
value is produced; with `anneal_end ≥ num_iterations_2nd_stage` no error is
raised and `beta` is 0 before the second-stage threshold, ramps linearly —
`latent_loss_multiplier * (step - second_stage) / (anneal_end -
second_stage)`, i.e. 0 at the threshold and the full multiplier at
`anneal_end` — in between, and equals `latent_loss_multiplier` past
`anneal_end`. -/
theorem claim_C7_linear_anneal_schedule
    (step_num second_stage anneal_end : ℕ) (latent_loss_multiplier : ℚ) :
    (anneal_end < second_stage →
      body_beta "linear_anneal" step_num second_stage anneal_end
          latent_loss_multiplier
        = Except.error
            "Expected hparams.num_iterations_2nd_stage < hparams.anneal_end") ∧
    (second_stage ≤ anneal_end →
      ∃ b, body_beta "linear_anneal" step_num second_stage anneal_end
          latent_loss_multiplier = Except.ok b) ∧
    (second_stage ≤ anneal_end → step_num < second_stage →
      body_beta "linear_anneal" step_num second_stage anneal_end
          latent_loss_multiplier = Except.ok 0) ∧
    (second_stage < anneal_end → second_stage ≤ step_num → step_num ≤ anneal_end →
      body_beta "linear_anneal" step_num second_stage anneal_end
          latent_loss_multiplier
        = Except.ok (latent_loss_multiplier *
            (((step_num : ℚ) - (second_stage : ℚ)) /
              ((anneal_end : ℚ) - (second_stage : ℚ))))) ∧
    (second_stage ≤ anneal_end → anneal_end < step_num →
      body_beta "linear_anneal" step_num second_stage anneal_end
          latent_loss_multiplier = Except.ok latent_loss_multiplier) := by
  refine ⟨fun h => ?_, fun h => ?_, fun h hlt => ?_, fun h hle hge => ?_,
    fun h hgt => ?_⟩
  · simp [body_beta, h]
  · refine ⟨if step_num < second_stage then 0
      else if step_num > anneal_end then latent_loss_multiplier
      else latent_loss_multiplier *
        (1 - ((anneal_end : ℚ) - (step_num : ℚ)) /
          ((anneal_end : ℚ) - (second_stage : ℚ))), ?_⟩
    simp [body_beta, Nat.not_lt.mpr h]
  · simp [body_beta, Nat.not_lt.mpr h, hlt]
  · have h1 : ¬ anneal_end < second_stage := by omega
    have h2 : ¬ step_num < second_stage := by omega
    have h3 : ¬ anneal_end < step_num := by omega
    simp only [body_beta, if_neg (by decide : ¬ ("linear_anneal" = "constant")),
      if_pos rfl, if_neg h1, if_neg h2, if_neg h3]
    have hden : (anneal_end : ℚ) - (second_stage : ℚ) ≠ 0 := by
      have : (second_stage : ℚ) < (anneal_end : ℚ) := by exact_mod_cast h
      exact sub_ne_zero.mpr (ne_of_gt this)
    field_simp
  · have h1 : ¬ anneal_end < second_stage := by omega
    have h2 : ¬ step_num < second_stage := by omega
    simp [body_beta, h1, h2, hgt]

/-- Witness for C7 at `second_stage = 2`, `anneal_end = 10`, multiplier 3:
error for `anneal_end = 1 < 2`, and beta at steps 1, 6, 20. -/
theorem claim_C7_linear_anneal_schedule_witness :
    body_beta "linear_anneal" 0 2 1 3
      = Except.error
          "Expected hparams.num_iterations_2nd_stage < hparams.anneal_end" ∧
    (∃ b, body_beta "linear_anneal" 0 2 10 3 = Except.ok b) ∧
    body_beta "linear_anneal" 1 2 10 3 = Except.ok 0 ∧
    body_beta "linear_anneal" 6 2 10 3
      = Except.ok (3 * ((((6 : ℕ) : ℚ) - ((2 : ℕ) : ℚ)) /
          ((((10 : ℕ) : ℚ)) - ((2 : ℕ) : ℚ)))) ∧
    body_beta "linear_anneal" 20 2 10 3 = Except.ok 3 :=
  ⟨(claim_C7_linear_anneal_schedule 0 2 1 3).1 (by decide),
   (claim_C7_linear_anneal_schedule 0 2 10 3).2.1 (by decide),
   (claim_C7_linear_anneal_schedule 1 2 10 3).2.2.1 (by decide) (by decide),
   (claim_C7_linear_anneal_schedule 6 2 10 3).2.2.2.1 (by decide) (by decide)
     (by decide),
   (claim_C7_linear_anneal_schedule 20 2 10 3).2.2.2.2 (by decide) (by decide)⟩

/-- Claim C10: with `stochastic_model = False`,
`NextFrameStochastic.construct_model` cannot return a prediction: the return
statement references `latent_mean` / `latent_std`, which are bound only in
the `stochastic_model` branch, so the forward pass fails with an uncaught
`NameError`; with `stochastic_model = True` it returns normally. -/
theorem claim_C10_nonstochastic_name_error {τ π ρ σ : Type} [Inhabited τ]
    (reward_prediction is_training : Bool) (context_frames : ℤ)
    (raw_latent : (σ → ℝ) × (σ → ℝ)) (latent_std_min : ℝ) (noise : σ → ℝ)
    (ss_func : τ → τ → τ)
    (pred_tower : Option (σ → ℝ) → τ → τ → τ → π → τ × π)
    (reward_tower : Option (σ → ℝ) → τ → τ → τ → ρ → τ × ρ)
    (init_lstm : π) (init_reward_lstm : ρ) (images actions rewards : List τ) :
    construct_model false reward_prediction is_training context_frames
        raw_latent latent_std_min noise ss_func pred_tower reward_tower
        init_lstm init_reward_lstm images actions rewards
      = Except.error "NameError: latent_mean is not defined" ∧
    ∃ r, construct_model true reward_prediction is_training context_frames
        raw_latent latent_std_min noise ss_func pred_tower reward_tower
        init_lstm init_reward_lstm images actions rewards = Except.ok r :=
  ⟨rfl, ⟨_, rfl⟩⟩

theorem scanTF_length {St In : Type} (f : St → In → St) (s : St) (l : List In) :
    (scanTF f s l).length = l.length := by
  induction l generalizing s with
  | nil => rfl
  | cons x xs ih => simp [scanTF, ih]

/-- Claim C6: for every valid input length `T_in ≥ 1` and target length
`T_out ≥ 1` (total sequence length `T_in + T_out`), `construct_model` emits a
prediction for every step — `T_in + T_out - 1` generated frames and rewards —
and `body` then discards the first `context_frames - 1 = T_in - 1` of them,
returning exactly `T_out` generated frames and `T_out` reward entries. -/
theorem claim_C6_output_window_lengths {τ π ρ σ : Type} [Inhabited τ]
    (reward_prediction is_training : Bool) (T_in T_out : ℕ)
    (raw_latent : (σ → ℝ) × (σ → ℝ)) (latent_std_min : ℝ) (noise : σ → ℝ)
    (ss_func : τ → τ → τ)
    (pred_tower : Option (σ → ℝ) → τ → τ → τ → π → τ × π)
    (reward_tower : Option (σ → ℝ) → τ → τ → τ → ρ → τ × ρ)
    (init_lstm : π) (init_reward_lstm : ρ) (images actions rewards : List τ)
    (hin : 1 ≤ T_in) (hout : 1 ≤ T_out)
    (hlen : images.length = T_in + T_out)
    (ha : actions.length = T_in + T_out) (hr : rewards.length = T_in + T_out) :
    ∃ gen_images gen_rewards latent_means latent_stds,
      construct_model true reward_prediction is_training (T_in : ℤ) raw_latent
          latent_std_min noise ss_func pred_tower reward_tower init_lstm
          init_reward_lstm images actions rewards
        = Except.ok (gen_images, gen_rewards, latent_means, latent_stds) ∧
      gen_images.length = T_in + T_out - 1 ∧
      gen_rewards.length = T_in + T_out - 1 ∧
      body_predictions true reward_prediction is_training T_in raw_latent
          latent_std_min noise ss_func pred_tower reward_tower init_lstm
          init_reward_lstm images actions rewards
        = Except.ok (gen_images.drop (T_in - 1), gen_rewards.drop (T_in - 1)) ∧
      (gen_images.drop (T_in - 1)).length = T_out ∧
      (gen_rewards.drop (T_in - 1)).length = T_out := by
  refine ⟨_, _, _, _, rfl, ?_, ?_, rfl, ?_, ?_⟩ <;>
    simp only [List.length_drop, List.length_cons, List.length_map,
      scanTF_length, List.length_zip, List.length_dropLast, hlen, ha, hr] <;>
    omega

/-- Witness for C6 with `T_in = 2`, `T_out = 3`, sequences of length 5. -/
theorem claim_C6_output_window_lengths_witness :
    ∃ gen_images gen_rewards latent_means latent_stds,
      construct_model true false false ((2 : ℕ) : ℤ)
          ((fun _ : Unit => (0 : ℝ)), (fun _ => 0)) 0 (fun _ => 0)
          (fun a _ : ℕ => a) (fun (_ : Option (Unit → ℝ)) (i _ _ s : ℕ) => (i, s))
          (fun (_ : Option (Unit → ℝ)) (_ r _ s : ℕ) => (r, s)) 0 0 [1, 2, 3, 4, 5] [1, 2, 3, 4, 5]
          [1, 2, 3, 4, 5]
        = Except.ok (gen_images, gen_rewards, latent_means, latent_stds) ∧
      gen_images.length = 2 + 3 - 1 ∧
      gen_rewards.length = 2 + 3 - 1 ∧
      body_predictions true false false 2
          ((fun _ : Unit => (0 : ℝ)), (fun _ => 0)) 0 (fun _ => 0)
          (fun a _ : ℕ => a) (fun (_ : Option (Unit → ℝ)) (i _ _ s : ℕ) => (i, s))
          (fun (_ : Option (Unit → ℝ)) (_ r _ s : ℕ) => (r, s)) 0 0 [1, 2, 3, 4, 5] [1, 2, 3, 4, 5]
          [1, 2, 3, 4, 5]
        = Except.ok (gen_images.drop (2 - 1), gen_rewards.drop (2 - 1)) ∧
      (gen_images.drop (2 - 1)).length = 3 ∧
      (gen_rewards.drop (2 - 1)).length = 3 :=
  claim_C6_output_window_lengths false false 2 3
    ((fun _ : Unit => (0 : ℝ)), (fun _ => 0)) 0 (fun _ => 0)
    (fun a _ : ℕ => a) (fun (_ : Option (Unit → ℝ)) (i _ _ s : ℕ) => (i, s))
    (fun (_ : Option (Unit → ℝ)) (_ r _ s : ℕ) => (r, s)) 0 0 [1, 2, 3, 4, 5] [1, 2, 3, 4, 5]
    [1, 2, 3, 4, 5] (by decide) (by decide) (by decide) (by decide) (by decide)

theorem twoframes_loop_latents {τ π ρ σ : Type}
    (reward_prediction is_training : Bool) (context_frames : ℤ)
    (ss_func : τ → τ → τ) (raw_latent_tower : τ → τ → (σ → ℝ) × (σ → ℝ))
    (latent_std_min : ℝ) (noise : ℤ → σ → ℝ)
    (pred_tower : Option (σ → ℝ) → τ → τ → τ → π → τ × π)
    (reward_tower : Option (σ → ℝ) → τ → τ → τ → ρ → τ × ρ)
    (imgs : List τ) :
    ∀ (acts rews : List τ) (t : ℤ) (pi pr : τ) (ls : π) (rls : ρ),
      imgs.length = acts.length + 1 → imgs.length = rews.length + 1 →
      (twoframes_loop reward_prediction is_training context_frames ss_func
          raw_latent_tower latent_std_min noise pred_tower reward_tower
          t imgs acts rews pi pr ls rls).2.2
        = ((imgs.dropLast.zip (imgs.drop 1)).map (fun q =>
            (construct_latent_tower is_training (raw_latent_tower q.1 q.2).1
              (raw_latent_tower q.1 q.2).2 latent_std_min).1),
           (imgs.dropLast.zip (imgs.drop 1)).map (fun q =>
            (construct_latent_tower is_training (raw_latent_tower q.1 q.2).1
              (raw_latent_tower q.1 q.2).2 latent_std_min).2)) := by
  induction imgs with
  | nil => intro acts rews t pi pr ls rls ha _; simp at ha
  | cons image rest ih =>
      intro acts rews t pi pr ls rls ha hr
      cases rest with
      | nil =>
          cases acts with
          | nil => simp [twoframes_loop]
          | cons a as => simp at ha
      | cons next restImgs =>
          cases acts with
          | nil => simp at ha
          | cons act restActs =>
            cases rews with
            | nil => simp at hr
            | cons rew restRews =>
              have ha' : (next :: restImgs).length = restActs.length + 1 := by
                simpa using ha
              have hr' : (next :: restImgs).length = restRews.length + 1 := by
                simpa using hr
              simp only [twoframes_loop]
              rw [ih restActs restRews (t + 1) _ _ _ _ ha' hr']
              simp

/-- Claim C9: in `NextFrameStochasticTwoFrames.construct_model` the latent at
timestep `t` is estimated fresh from the ground-truth frame pair
`(images[t], images[t+1])`: the returned posterior means and stds are exactly
the latent-tower outputs on the consecutive ground-truth pairs, for every
scheduled-sampling function, predictive tower, reward tower and noise — in
particular they never depend on scheduled-sampling-substituted generated
frames, even at steps where scheduled sampling selected the generated image
as the prediction input. -/
theorem claim_C9_twoframes_latent_from_ground_truth {τ π ρ σ : Type}
    [Inhabited τ] (reward_prediction is_training : Bool) (context_frames : ℤ)
    (ss_func : τ → τ → τ) (raw_latent_tower : τ → τ → (σ → ℝ) × (σ → ℝ))
    (latent_std_min : ℝ) (noise : ℤ → σ → ℝ)
    (pred_tower : Option (σ → ℝ) → τ → τ → τ → π → τ × π)
    (reward_tower : Option (σ → ℝ) → τ → τ → τ → ρ → τ × ρ)
    (init_lstm : π) (init_reward_lstm : ρ) (images actions rewards : List τ)
    (hne : images ≠ []) (ha : actions.length = images.length)
    (hr : rewards.length = images.length) :
    (twoframes_construct_model reward_prediction is_training context_frames
        ss_func raw_latent_tower latent_std_min noise pred_tower reward_tower
        init_lstm init_reward_lstm images actions rewards).2.2
      = ((images.dropLast.zip (images.drop 1)).map (fun q =>
          (construct_latent_tower is_training (raw_latent_tower q.1 q.2).1
            (raw_latent_tower q.1 q.2).2 latent_std_min).1),
         (images.dropLast.zip (images.drop 1)).map (fun q =>
          (construct_latent_tower is_training (raw_latent_tower q.1 q.2).1
            (raw_latent_tower q.1 q.2).2 latent_std_min).2)) := by
  have hlen : 1 ≤ images.length := by
    cases images with
    | nil => exact absurd rfl hne
    | cons x xs => simp
  exact twoframes_loop_latents reward_prediction is_training context_frames
    ss_func raw_latent_tower latent_std_min noise pred_tower reward_tower
    images actions.dropLast rewards.dropLast 0 images.headI rewards.headI
    init_lstm init_reward_lstm
    (by simp [List.length_dropLast, ha]; omega)
    (by simp [List.length_dropLast, hr]; omega)

/-- Witness for C9 on a concrete three-frame sequence. -/
theorem claim_C9_twoframes_latent_from_ground_truth_witness :
    (twoframes_construct_model false true 1 (fun a b : ℕ => a + b)
        (fun a b => (fun _ : Unit => (a : ℝ) + b, fun _ => (a : ℝ) * b)) 0
        (fun _ _ => 0) (fun (_ : Option (Unit → ℝ)) (i _ _ s : ℕ) => (i + 1, s))
        (fun (_ : Option (Unit → ℝ)) (_ r _ s : ℕ) => (r, s)) 0 0 [5, 6, 7] [0, 0, 0] [0, 0, 0]).2.2
      = (([5, 6, 7].dropLast.zip ([5, 6, 7].drop 1)).map (fun q : ℕ × ℕ =>
          (construct_latent_tower true
            (fun _ : Unit => ((q.1 : ℝ)) + q.2) (fun _ => ((q.1 : ℝ)) * q.2) 0).1),
         ([5, 6, 7].dropLast.zip ([5, 6, 7].drop 1)).map (fun q : ℕ × ℕ =>
          (construct_latent_tower true
            (fun _ : Unit => ((q.1 : ℝ)) + q.2) (fun _ => ((q.1 : ℝ)) * q.2) 0).2)) :=
  claim_C9_twoframes_latent_from_ground_truth false true 1 (fun a b => a + b)
    (fun a b => (fun _ : Unit => (a : ℝ) + b, fun _ => (a : ℝ) * b)) 0
    (fun _ _ => 0) (fun _ i _ _ s => (i + 1, s)) (fun _ _ r _ s => (r, s)) 0 0
    [5, 6, 7] [0, 0, 0] [0, 0, 0] (by decide) (by decide) (by decide)

theorem sigmoid_pos (x : ℝ) : 0 < sigmoid x := by
  unfold sigmoid
  positivity

theorem sigmoid_le_one (x : ℝ) : sigmoid x ≤ 1 := by
  unfold sigmoid
  rw [div_le_one (by positivity)]
  have := (Real.exp_pos (-x)).le
  linarith

theorem maskList_drop_one {Pos : Type} (num_masks : ℕ)
    (maskLogits : Pos → ℕ → ℝ) :
    (maskListOf num_masks maskLogits).drop 1
      = (List.range num_masks).map
          (fun i => fun q => compositingMask num_masks maskLogits q (i + 1)) := by
  simp only [maskListOf, List.range_succ_eq_map, List.map_cons,
    List.drop_succ_cons, List.drop_zero, List.map_map]
  rfl

theorem sum_map_zip_apply {Pos : Type} (p : Pos) (b : ℕ) :
    ∀ (a : ℕ) (F G : ℕ → Pos → ℝ), b ≤ a →
      ((((List.range a).map F).zip ((List.range b).map G)).map
        (fun lm => lm.1 p * lm.2 p)).sum
      = ∑ i ∈ Finset.range b, F i p * G i p := by
  induction b with
  | zero => intro a F G _; simp
  | succ b ih =>
      intro a F G hba
      cases a with
      | zero => omega
      | succ a' =>
          rw [List.range_succ_eq_map, List.range_succ_eq_map, List.map_cons,
            List.map_cons, List.zip_cons_cons, List.map_cons, List.sum_cons,
            List.map_map, List.map_map,
            ih a' (F ∘ Nat.succ) (G ∘ Nat.succ) (by omega),
            Finset.sum_range_succ']
          simp only [Function.comp_apply, Nat.succ_eq_add_one]
          exact add_comm _ _

theorem compositeOutput_map_range {Pos : Type} (num_masks k : ℕ)
    (hk : num_masks ≤ k) (input_image : Pos → ℝ) (C : ℕ → Pos → ℝ)
    (maskLogits : Pos → ℕ → ℝ) (p : Pos) :
    compositeOutput num_masks input_image ((List.range k).map C) maskLogits p
      = compositingMask num_masks maskLogits p 0 * input_image p
        + ∑ i ∈ Finset.range num_masks,
            C i p * compositingMask num_masks maskLogits p (i + 1) := by
  unfold compositeOutput
  rw [maskList_drop_one]
  rw [sum_map_zip_apply p num_masks k C
    (fun i => fun q => compositingMask num_masks maskLogits q (i + 1)) hk]

theorem convex_combination_bounds (n : ℕ) (m v : ℕ → ℝ) (v0 lo hi : ℝ)
    (hm : ∀ i, 0 ≤ m i) (hsum : m 0 + ∑ i ∈ Finset.range n, m (i + 1) = 1)
    (hv0l : lo ≤ v0) (hv0h : v0 ≤ hi)
    (hvl : ∀ i, i < n → lo ≤ v i) (hvh : ∀ i, i < n → v i ≤ hi) :
    lo ≤ m 0 * v0 + ∑ i ∈ Finset.range n, v i * m (i + 1) ∧
    m 0 * v0 + ∑ i ∈ Finset.range n, v i * m (i + 1) ≤ hi := by
  constructor
  · have h1 : m 0 * lo ≤ m 0 * v0 := mul_le_mul_of_nonneg_left hv0l (hm 0)
    have h2 : ∑ i ∈ Finset.range n, lo * m (i + 1)
        ≤ ∑ i ∈ Finset.range n, v i * m (i + 1) :=
      Finset.sum_le_sum (fun i hi' =>
        mul_le_mul_of_nonneg_right (hvl i (Finset.mem_range.mp hi')) (hm (i + 1)))
    have e : m 0 * lo + ∑ i ∈ Finset.range n, lo * m (i + 1) = lo := by
      rw [← Finset.mul_sum, mul_comm (m 0) lo, ← mul_add, hsum, mul_one]
    calc lo = m 0 * lo + ∑ i ∈ Finset.range n, lo * m (i + 1) := e.symm
      _ ≤ m 0 * v0 + ∑ i ∈ Finset.range n, v i * m (i + 1) := add_le_add h1 h2
  · have h1 : m 0 * v0 ≤ m 0 * hi := mul_le_mul_of_nonneg_left hv0h (hm 0)
    have h2 : ∑ i ∈ Finset.range n, v i * m (i + 1)
        ≤ ∑ i ∈ Finset.range n, hi * m (i + 1) :=
      Finset.sum_le_sum (fun i hi' =>
        mul_le_mul_of_nonneg_right (hvh i (Finset.mem_range.mp hi')) (hm (i + 1)))
    have e : m 0 * hi + ∑ i ∈ Finset.range n, hi * m (i + 1) = hi := by
      rw [← Finset.mul_sum, mul_comm (m 0) hi, ← mul_add, hsum, mul_one]
    calc m 0 * v0 + ∑ i ∈ Finset.range n, v i * m (i + 1)
        ≤ m 0 * hi + ∑ i ∈ Finset.range n, hi * m (i + 1) := add_le_add h1 h2
      _ = hi := e

theorem cdna_transformed_eq_map_range {Pos : Type} (num_masks : ℕ)
    (enc7direct : Pos → ℝ) (cdnaCand : ℕ → Pos → ℝ) :
    (fun q => sigmoid (enc7direct q)) :: cdna_transformation num_masks cdnaCand
      = (List.range (num_masks + 1)).map
          (fun i => if i = 0 then (fun q => sigmoid (enc7direct q))
                    else cdnaCand (i - 1)) := by
  rw [List.range_succ_eq_map, List.map_cons, List.map_map]
  simp [cdna_transformation, Function.comp]

/-- Claim C1 (amended): the output of `construct_predictive_tower` equals
mask channel 0 times the untransformed previous frame plus the first
`num_masks` candidates each times its own mask channel, in order — in CDNA
mode these are the direct sigmoid-activated image (channel 1) and the first
`num_masks - 1` CDNA-transformed copies (channels 2..num_masks), the `zip`
with `mask_list[1:]` silently dropping the last CDNA candidate; in DNA mode
the single DNA candidate is weighted by channel 1.  The output is a
per-pixel convex combination of the previous frame and the weighted
candidates, so its value range is bounded by their range. -/
theorem claim_C1_compositing_formula_and_bounds {Pos : Type} (num_masks : ℕ)
    (input_image enc7direct : Pos → ℝ) (cdnaCand : ℕ → Pos → ℝ)
    (dnaCand : Pos → ℝ) (maskLogits : Pos → ℕ → ℝ) (p : Pos) (lo hi : ℝ) :
    (∀ out, construct_predictive_tower "CDNA" num_masks input_image enc7direct
          cdnaCand dnaCand maskLogits = Except.ok out →
        out p = compositingMask num_masks maskLogits p 0 * input_image p
          + ∑ i ∈ Finset.range num_masks,
              (if i = 0 then sigmoid (enc7direct p) else cdnaCand (i - 1) p)
                * compositingMask num_masks maskLogits p (i + 1)) ∧
    (∀ out, construct_predictive_tower "CDNA" num_masks input_image enc7direct
          cdnaCand dnaCand maskLogits = Except.ok out →
        lo ≤ input_image p → input_image p ≤ hi →
        lo ≤ sigmoid (enc7direct p) → sigmoid (enc7direct p) ≤ hi →
        (∀ j, lo ≤ cdnaCand j p) → (∀ j, cdnaCand j p ≤ hi) →
        lo ≤ out p ∧ out p ≤ hi) ∧
    (∀ out, construct_predictive_tower "DNA" 1 input_image enc7direct
          cdnaCand dnaCand maskLogits = Except.ok out →
        out p = compositingMask 1 maskLogits p 0 * input_image p
          + dnaCand p * compositingMask 1 maskLogits p 1) ∧
    (∀ out, construct_predictive_tower "DNA" 1 input_image enc7direct
          cdnaCand dnaCand maskLogits = Except.ok out →
        lo ≤ input_image p → input_image p ≤ hi →
        lo ≤ dnaCand p → dnaCand p ≤ hi →
        lo ≤ out p ∧ out p ≤ hi) := by
  have hC : construct_predictive_tower "CDNA" num_masks input_image enc7direct
      cdnaCand dnaCand maskLogits
      = Except.ok (compositeOutput num_masks input_image
          ((List.range (num_masks + 1)).map
            (fun i => if i = 0 then (fun q => sigmoid (enc7direct q))
                      else cdnaCand (i - 1))) maskLogits) := by
    rw [← cdna_transformed_eq_map_range]
    rfl
  have hCf : ∀ q : Pos,
      compositeOutput num_masks input_image
          ((List.range (num_masks + 1)).map
            (fun i => if i = 0 then (fun r => sigmoid (enc7direct r))
                      else cdnaCand (i - 1))) maskLogits q
        = compositingMask num_masks maskLogits q 0 * input_image q
          + ∑ i ∈ Finset.range num_masks,
              (if i = 0 then sigmoid (enc7direct q) else cdnaCand (i - 1) q)
                * compositingMask num_masks maskLogits q (i + 1) := by
    intro q
    rw [compositeOutput_map_range num_masks (num_masks + 1) (Nat.le_succ _)]
    refine congrArg (fun s => _ + s) (Finset.sum_congr rfl (fun i _ => ?_))
    by_cases hi0 : i = 0 <;> simp [hi0]
  have hD : construct_predictive_tower "DNA" 1 input_image enc7direct
      cdnaCand dnaCand maskLogits
      = Except.ok (compositeOutput 1 input_image
          ((List.range 1).map (fun _ => dnaCand)) maskLogits) := rfl
  have hDf : ∀ q : Pos,
      compositeOutput 1 input_image ((List.range 1).map (fun _ => dnaCand))
          maskLogits q
        = compositingMask 1 maskLogits q 0 * input_image q
          + dnaCand q * compositingMask 1 maskLogits q 1 := by
    intro q
    rw [compositeOutput_map_range 1 1 le_rfl]
    rw [Finset.sum_range_one]
  have hmask_sum : ∀ nm : ℕ,
      compositingMask nm maskLogits p 0
        + ∑ i ∈ Finset.range nm, compositingMask nm maskLogits p (i + 1) = 1 := by
    intro nm
    have := compositingMask_sum nm maskLogits p
    rw [Finset.sum_range_succ'] at this
    linarith
  refine ⟨fun out h => ?_, fun out h h1 h2 h3 h4 h5 h6 => ?_,
    fun out h => ?_, fun out h h1 h2 h3 h4 => ?_⟩
  · rw [hC] at h
    injection h with h'
    rw [← h']
    exact hCf p
  · rw [hC] at h
    injection h with h'
    rw [← h', hCf p]
    refine convex_combination_bounds num_masks
      (fun i => compositingMask num_masks maskLogits p i)
      (fun i => if i = 0 then sigmoid (enc7direct p) else cdnaCand (i - 1) p)
      (input_image p) lo hi
      (fun i => (compositingMask_pos num_masks maskLogits p i).le)
      (hmask_sum num_masks) h1 h2 (fun i _ => ?_) (fun i _ => ?_)
    · by_cases hi0 : i = 0 <;> simp [hi0, h3, h5]
    · by_cases hi0 : i = 0 <;> simp [hi0, h4, h6]
  · rw [hD] at h
    injection h with h'
    rw [← h']
    exact hDf p
  · rw [hD] at h
    injection h with h'
    rw [← h', hDf p]
    have := convex_combination_bounds 1
      (fun i => compositingMask 1 maskLogits p i)
      (fun _ => dnaCand p) (input_image p) lo hi
      (fun i => (compositingMask_pos 1 maskLogits p i).le)
      (hmask_sum 1) h1 h2 (fun _ _ => h3) (fun _ _ => h4)
    rwa [Finset.sum_range_one] at this

/-- Counterexample to claim C1 as stated: in CDNA mode with `num_masks = 1`
there are two candidates (the direct sigmoid image and one CDNA-transformed
copy) but `zip(transformed, mask_list[1:])` pairs only `num_masks = 1` of
them, so the CDNA copy is dropped: replacing it by a completely different
candidate (constant 1000 instead of constant 0) leaves the tower output
unchanged, and the output evaluates to `1/4` (only the previous frame and
the direct image are weighted) even though every softmax mask channel is
strictly positive — so it is not the case that every candidate is weighted
by one of the `num_masks + 1` mask channels. -/
theorem claim_C1_counterexample :
    construct_predictive_tower "CDNA" 1 (fun _ : Unit => (0 : ℝ)) (fun _ => 0)
        (fun _ _ => 0) (fun _ => 0) (fun _ _ => 0)
      = construct_predictive_tower "CDNA" 1 (fun _ : Unit => (0 : ℝ)) (fun _ => 0)
        (fun _ _ => 1000) (fun _ => 0) (fun _ _ => 0) ∧
    cdna_transformation 1 (fun _ (_ : Unit) => (0 : ℝ))
      ≠ cdna_transformation 1 (fun _ (_ : Unit) => (1000 : ℝ)) ∧
    (transformedList "CDNA" 1 (fun _ : Unit => (0 : ℝ)) (fun _ _ => 1000)
        (fun _ => 0)).map List.length = Except.ok 2 ∧
    (maskListOf 1 (fun (_ : Unit) _ => (0 : ℝ))).length = 2 ∧
    0 < compositingMask 1 (fun (_ : Unit) _ => (0 : ℝ)) () 1 ∧
    construct_predictive_tower "CDNA" 1 (fun _ : Unit => (0 : ℝ)) (fun _ => 0)
        (fun _ _ => 1000) (fun _ => 0) (fun _ _ => 0)
      = Except.ok (fun _ => 1 / 4) := by
  refine ⟨rfl, ?_, rfl, rfl, compositingMask_pos 1 (fun _ _ => 0) () 1, ?_⟩
  · intro h
    have h2 := congrArg (fun l : List (Unit → ℝ) => l.headI ()) h
    norm_num [cdna_transformation] at h2
  · refine congrArg Except.ok (funext fun p => ?_)
    norm_num [construct_predictive_tower, transformedList, cdna_transformation,
      compositeOutput, maskListOf, compositingMask, softmaxAt, sigmoid,
      Real.exp_zero, Finset.sum_range_succ, List.range_succ]

/-- Witness for the amended C1 at `num_masks = 1`, zero inputs and logits,
constant-1 candidates, bounds `[0, 1]`. -/
theorem claim_C1_compositing_formula_and_bounds_witness :
    ((compositeOutput 1 (fun _ : Unit => (0 : ℝ))
        ((fun q => sigmoid ((fun _ : Unit => (0 : ℝ)) q)) ::
          cdna_transformation 1 (fun _ _ => 1)) (fun _ _ => 0)) ()
      = compositingMask 1 (fun _ _ => 0) () 0 * 0
        + ∑ i ∈ Finset.range 1,
            (if i = 0 then sigmoid 0 else 1)
              * compositingMask 1 (fun _ _ => 0) () (i + 1)) ∧
    (0 ≤ (compositeOutput 1 (fun _ : Unit => (0 : ℝ))
        ((fun q => sigmoid ((fun _ : Unit => (0 : ℝ)) q)) ::
          cdna_transformation 1 (fun _ _ => 1)) (fun _ _ => 0)) () ∧
      (compositeOutput 1 (fun _ : Unit => (0 : ℝ))
        ((fun q => sigmoid ((fun _ : Unit => (0 : ℝ)) q)) ::
          cdna_transformation 1 (fun _ _ => 1)) (fun _ _ => 0)) () ≤ 1) ∧
    ((compositeOutput 1 (fun _ : Unit => (0 : ℝ))
        ((List.range 1).map (fun _ => fun _ : Unit => (1 : ℝ))) (fun _ _ => 0)) ()
      = compositingMask 1 (fun _ _ => 0) () 0 * 0
        + 1 * compositingMask 1 (fun _ _ => 0) () 1) ∧
    (0 ≤ (compositeOutput 1 (fun _ : Unit => (0 : ℝ))
        ((List.range 1).map (fun _ => fun _ : Unit => (1 : ℝ))) (fun _ _ => 0)) () ∧
      (compositeOutput 1 (fun _ : Unit => (0 : ℝ))
        ((List.range 1).map (fun _ => fun _ : Unit => (1 : ℝ))) (fun _ _ => 0)) () ≤ 1) :=
  ⟨(claim_C1_compositing_formula_and_bounds 1 (fun _ : Unit => (0 : ℝ))
      (fun _ => 0) (fun _ _ => 1) (fun _ => 1) (fun _ _ => 0) () 0 1).1 _ rfl,
   (claim_C1_compositing_formula_and_bounds 1 (fun _ : Unit => (0 : ℝ))
      (fun _ => 0) (fun _ _ => 1) (fun _ => 1) (fun _ _ => 0) () 0 1).2.1 _ rfl
     le_rfl (by norm_num) (sigmoid_pos 0).le (sigmoid_le_one 0)
     (fun _ => by norm_num) (fun _ => by norm_num),
   (claim_C1_compositing_formula_and_bounds 1 (fun _ : Unit => (0 : ℝ))
      (fun _ => 0) (fun _ _ => 1) (fun _ => 1) (fun _ _ => 0) () 0 1).2.2.1 _ rfl,
   (claim_C1_compositing_formula_and_bounds 1 (fun _ : Unit => (0 : ℝ))
      (fun _ => 0) (fun _ _ => 1) (fun _ => 1) (fun _ _ => 0) () 0 1).2.2.2 _ rfl
     le_rfl (by norm_num) (by norm_num) le_rfl⟩

end NextFrame
